import Mathlib

/-!
Shallow embedding of the `biocharv5` circular-Sankey diagram renderer
(`CircularSankeyHomepage`) and of the Next.js basic-auth `middleware`,
with theorems settling the specification claims about them.

Geometry is embedded over `ℚ` (all the arithmetic performed by the
renderer on its configuration coordinates is exact rational arithmetic;
no rounding enters any of the formulas under study).
-/

namespace Biochar

/-- A point in the 2D scene. -/
structure Pt where
  x : ℚ
  y : ℚ
deriving DecidableEq, Repr

/-- Diagram node, as in the `DiagramNode` interface: identifier, position,
size (the display-only fields `name`, `color`, `icon` and the label flags do
not enter any geometry and are kept as plain data). -/
structure DiagramNode where
  id : String
  name : String := ""
  x : ℚ
  y : ℚ
  width : ℚ
  height : ℚ
  color : String := ""
  icon : String := ""
deriving DecidableEq, Repr

/-- Diagram link, as in the `DiagramLink` interface.  Optional numeric
fields are `Option ℚ` (absent = `undefined`). -/
structure DiagramLink where
  id : String
  source : String
  target : String
  value : ℚ := 4
  color : String := ""
  label : Option String := none
  labelPosition : Option ℚ := none
  animationFrequency : Option ℚ := none
  animationRate : Option ℚ := none
  animationSize : Option ℚ := none
  returnY : Option ℚ := none
deriving DecidableEq, Repr

/-- `metadata` of the diagram data (only the `system` tag matters to the
renderer's control flow). -/
structure DiagramMetadata where
  title : String := ""
  description : String := ""
  type : String := ""
  system : String
deriving DecidableEq, Repr

/-- `new Map(diagramData.nodes.map(node => [node.id, node]))`: a JS `Map`
built from a key/value list keeps the **last** binding of a duplicated key,
so the lookup scans the reversed list. -/
def nodeMapGet (nodes : List DiagramNode) (id : String) : Option DiagramNode :=
  nodes.reverse.find? (fun n => n.id = id)

/-- SVG-style path commands, the constructors mirroring the `M`/`L`/`Q`/`C`
commands interpolated into the path string by `generateLinkPath`. -/
inductive PathCmd where
  | move (x y : ℚ)
  | line (x y : ℚ)
  | quad (cx cy x y : ℚ)
  | cubic (c1x c1y c2x c2y x y : ℚ)
deriving DecidableEq, Repr

/-- The loop height used by the loop-back branch of `generateLinkPath`:
`returnY !== undefined ? returnY : Math.max(sy, ty) + 100 + stagger`
with `stagger = linkIndex * 60`. -/
def computeLoopY (returnY : Option ℚ) (sy ty : ℚ) (linkIndex : ℕ) : ℚ :=
  match returnY with
  | some r => r
  | none => max sy ty + 100 + (linkIndex : ℚ) * 60

/-- `generateLinkPath` from `CircularSankeyHomepage`: resolves the two
endpoint nodes (empty path when either is missing), anchors at the source's
right-center and the target's left-center, and branches on `tx < sx`
between the rectilinear loop-back route (with its reversed text variant)
and a single forward cubic Bezier. -/
def generateLinkPath (nodeMap : String → Option DiagramNode)
    (link : DiagramLink) (linkIndex : ℕ) (reverse : Bool) : List PathCmd :=
  match nodeMap link.source, nodeMap link.target with
  | some sourceNode, some targetNode =>
    let sx := sourceNode.x + sourceNode.width
    let sy := sourceNode.y + sourceNode.height / 2
    let tx := targetNode.x
    let ty := targetNode.y + targetNode.height / 2
    if tx < sx then
      let gap : ℚ := 30
      let loopY := computeLoopY link.returnY sy ty linkIndex
      let sourceCurveDir : ℚ := if sy < loopY then 1 else -1
      let targetCurveDir : ℚ := if ty < loopY then -1 else 1
      if reverse then
        [ .move tx ty,
          .line (tx - gap) ty,
          .quad (tx - gap - 20) ty (tx - gap - 20) (ty - 20 * targetCurveDir),
          .line (tx - gap - 20) (loopY + 20 * targetCurveDir),
          .quad (tx - gap - 20) loopY (tx - gap) loopY,
          .line (sx + gap) loopY,
          .quad (sx + gap + 20) loopY (sx + gap + 20) (loopY - 20 * sourceCurveDir),
          .line (sx + gap + 20) (sy + 20 * sourceCurveDir),
          .quad (sx + gap + 20) sy (sx + gap) sy,
          .line sx sy ]
      else
        [ .move sx sy,
          .line (sx + gap) sy,
          .quad (sx + gap + 20) sy (sx + gap + 20) (sy + 20 * sourceCurveDir),
          .line (sx + gap + 20) (loopY - 20 * sourceCurveDir),
          .quad (sx + gap + 20) loopY (sx + gap) loopY,
          .line (tx - gap) loopY,
          .quad (tx - gap - 20) loopY (tx - gap - 20) (loopY + 20 * targetCurveDir),
          .line (tx - gap - 20) (ty - 20 * targetCurveDir),
          .quad (tx - gap - 20) ty (tx - gap) ty,
          .line tx ty ]
    else
      let midX := (sx + tx) / 2
      [ .move sx sy, .cubic midX sy midX ty tx ty ]
  | _, _ => []

/-- First on-path point of a command list (the `M` that opens it). -/
def pathStart : List PathCmd → Option Pt
  | .move x y :: _ => some ⟨x, y⟩
  | _ => none

/-- Endpoint of the final command of a path. -/
def pathEnd : List PathCmd → Option Pt
  | [] => none
  | [c] =>
    match c with
    | .move x y => some ⟨x, y⟩
    | .line x y => some ⟨x, y⟩
    | .quad _ _ x y => some ⟨x, y⟩
    | .cubic _ _ _ _ x y => some ⟨x, y⟩
  | _ :: c :: rest => pathEnd (c :: rest)

/-- A drawable segment of a path: a straight line, a quadratic Bezier or a
cubic Bezier, with all of its control points. -/
inductive Seg where
  | line (p q : Pt)
  | quad (p c q : Pt)
  | cubic (p c1 c2 q : Pt)
deriving DecidableEq, Repr

/-- The segments traced by a command list, threading the current point. -/
def segmentsFrom (cur : Pt) : List PathCmd → List Seg
  | [] => []
  | .move x y :: rest => segmentsFrom ⟨x, y⟩ rest
  | .line x y :: rest => .line cur ⟨x, y⟩ :: segmentsFrom ⟨x, y⟩ rest
  | .quad cx cy x y :: rest =>
      .quad cur ⟨cx, cy⟩ ⟨x, y⟩ :: segmentsFrom ⟨x, y⟩ rest
  | .cubic c1x c1y c2x c2y x y :: rest =>
      .cubic cur ⟨c1x, c1y⟩ ⟨c2x, c2y⟩ ⟨x, y⟩ :: segmentsFrom ⟨x, y⟩ rest

/-- All segments of a path (current point starts at the origin, as for an
SVG path, though every generated path opens with `M`). -/
def segments (cmds : List PathCmd) : List Seg :=
  segmentsFrom ⟨0, 0⟩ cmds

/-- Point of a segment at parameter `t` (Bernstein form for the Beziers). -/
def segEval : Seg → ℚ → Pt
  | .line p q, t => ⟨(1 - t) * p.x + t * q.x, (1 - t) * p.y + t * q.y⟩
  | .quad p c q, t =>
      ⟨(1 - t) ^ 2 * p.x + 2 * t * (1 - t) * c.x + t ^ 2 * q.x,
       (1 - t) ^ 2 * p.y + 2 * t * (1 - t) * c.y + t ^ 2 * q.y⟩
  | .cubic p c1 c2 q, t =>
      ⟨(1 - t) ^ 3 * p.x + 3 * t * (1 - t) ^ 2 * c1.x
         + 3 * t ^ 2 * (1 - t) * c2.x + t ^ 3 * q.x,
       (1 - t) ^ 3 * p.y + 3 * t * (1 - t) ^ 2 * c1.y
         + 3 * t ^ 2 * (1 - t) * c2.y + t ^ 3 * q.y⟩

/-- `p` lies on the traversal of `cmds`: it is some segment's point at some
parameter in `[0,1]`. -/
def OnPath (cmds : List PathCmd) (p : Pt) : Prop :=
  ∃ s ∈ segments cmds, ∃ t : ℚ, 0 ≤ t ∧ t ≤ 1 ∧ segEval s t = p

/-! ### Viewport fitter -/

/-- Result of the fit-to-viewport computation: the uniform scale and the
translation applied to the scene group. -/
structure FitTransform where
  scale : ℚ
  translateX : ℚ
  translateY : ℚ
deriving DecidableEq, Repr

/-- The fit-to-viewport block of `CircularSankeyHomepage`:
`padding = 20`, `scaleX = (width - padding) / bbox.width`,
`scaleY = (height - padding) / bbox.height`,
`scale = Math.min(scaleX, scaleY) * 0.95`, and the translation
`(width - bbox.width*scale)/2 - bbox.x*scale` (same shape for y). -/
def viewportFit (width height bboxX bboxY bboxW bboxH : ℚ) : FitTransform :=
  let padding : ℚ := 20
  let scaleX := (width - padding) / bboxW
  let scaleY := (height - padding) / bboxH
  let scale := min scaleX scaleY * 0.95
  let scaledWidth := bboxW * scale
  let scaledHeight := bboxH * scale
  { scale := scale
    translateX := (width - scaledWidth) / 2 - bboxX * scale
    translateY := (height - scaledHeight) / 2 - bboxY * scale }

/-! ### Staged reveal phases -/

/-- One entry of `ANIMATION_PHASES`. -/
structure AnimationPhase where
  nodes : List String
  links : List String
  delay : ℕ
  duration : ℕ
deriving DecidableEq, Repr

/-- The `ANIMATION_PHASES` record, keyed `phase1` .. `phase6`. -/
def ANIMATION_PHASES : ℕ → Option AnimationPhase
  | 1 => some ⟨["anaerobic-digester"], [], 0, 800⟩
  | 2 => some ⟨[], ["link-house-to-ad", "link-plant-to-ad"], 600, 600⟩
  | 3 => some ⟨["pyrolysis-unit"], [], 400, 800⟩
  | 4 => some ⟨[], ["link-ad-to-pyrolysis", "link-house-to-pyrolysis"], 400, 600⟩
  | 5 => some ⟨["rng-output", "co2-output", "syngas-output", "biochar-blend",
               "node-1765493578436-0lnym20wl"], [], 300, 600⟩
  | 6 => some ⟨[], ["link-ad-to-rng", "link-ad-to-co2", "link-pyrolysis-to-syngas",
               "link-ad-to-blend", "link-blend-to-farm"], 300, 600⟩
  | _ => none

/-- `delay + duration` of phase `i` (0 for an absent key; the source loop
only ever reads the six defined keys). -/
def phaseTotal (i : ℕ) : ℕ :=
  match ANIMATION_PHASES i with
  | some p => p.delay + p.duration
  | none => 0

/-- `getPhaseStartTime`: sums `delay + duration` over phases `1 ≤ i <
phaseNum` and adds the phase's own delay (`currentPhase?.delay || 0`). -/
def getPhaseStartTime (phaseNum : ℕ) : ℕ :=
  let totalDelay := ((List.range (phaseNum - 1)).map (fun i => phaseTotal (i + 1))).sum
  totalDelay + (match ANIMATION_PHASES phaseNum with
                | some p => p.delay
                | none => 0)

/-- `getNodePhase`: the phase number whose `nodes` list holds the id. -/
def getNodePhase (nodeId : String) : Option ℕ :=
  (List.range 6).findSome? fun i =>
    match ANIMATION_PHASES (i + 1) with
    | some p => if nodeId ∈ p.nodes then some (i + 1) else none
    | none => none

/-- `getLinkPhase`: the phase number whose `links` list holds the id. -/
def getLinkPhase (linkId : String) : Option ℕ :=
  (List.range 6).findSome? fun i =>
    match ANIMATION_PHASES (i + 1) with
    | some p => if linkId ∈ p.links then some (i + 1) else none
    | none => none

/-- Modelled from the spec: the spec's statement of a phase's absolute
start time, "the sum over all prior phases of (delay + duration) plus
phase N's own delay", written directly as that sum so the code's
`getPhaseStartTime` can be compared against it. -/
def specPhaseStart (phaseNum : ℕ) : ℕ :=
  (∑ i ∈ Finset.Ico 1 phaseNum, phaseTotal i)
    + (match ANIMATION_PHASES phaseNum with
       | some p => p.delay
       | none => 0)

/-! ### Control flow of the renderer -/

/-- `context = diagramData.metadata?.system === 'proposed' ? 'proposed' :
'current'`. -/
def contextOf (metadata : Option DiagramMetadata) : String :=
  match metadata with
  | some m => if m.system = "proposed" then "proposed" else "current"
  | none => "current"

/-- `shouldAnimate = animateTransition && context === 'proposed'`. -/
def shouldAnimate (animateTransition : Bool) (metadata : Option DiagramMetadata) : Bool :=
  animateTransition && (contextOf metadata = "proposed")

/-- Initial render state of a node: opacity, uniform scale, and whether a
reveal transition is scheduled for it. -/
structure NodeInit where
  opacity : ℚ
  scale : ℚ
  animated : Bool
deriving DecidableEq, Repr

/-- The node pass's initial opacity/scale:
`isAnimatedNode = shouldAnimate && nodePhase !== null`,
`baseOpacity = isConnected ? 1 : 0.2`,
`initialOpacity = isAnimatedNode ? 0 : baseOpacity`,
`initialScale = isAnimatedNode ? 0.3 : 1`. -/
def nodeInitial (shouldAnim : Bool) (nodeId : String) (isConnected : Bool) : NodeInit :=
  let isAnimatedNode := shouldAnim && (getNodePhase nodeId).isSome
  let baseOpacity : ℚ := if isConnected then 1 else 0.2
  { opacity := if isAnimatedNode then 0 else baseOpacity
    scale := if isAnimatedNode then 0.3 else 1
    animated := isAnimatedNode }

/-- Initial render state of a link path: opacity and whether a dash-offset
reveal transition is scheduled. -/
structure LinkInit where
  opacity : ℚ
  animated : Bool
deriving DecidableEq, Repr

/-- The link pass's initial opacity:
`isAnimatedLink = shouldAnimate && linkPhase !== null`,
`baseOpacity` is 0.6 with no highlight (0.8/0.1 under a highlight),
`initialOpacity = isAnimatedLink ? 0 : baseOpacity`. -/
def linkInitial (shouldAnim : Bool) (link : DiagramLink)
    (highlightedNode : Option String) : LinkInit :=
  let isAnimatedLink := shouldAnim && (getLinkPhase link.id).isSome
  let baseOpacity : ℚ :=
    match highlightedNode with
    | some h => if h = link.source ∨ h = link.target then 0.8 else 0.1
    | none => 0.6
  { opacity := if isAnimatedLink then 0 else baseOpacity
    animated := isAnimatedLink }

/-! ### Particle scheduling -/

/-- `animationRate = link.animationRate || 3` — JS `||` replaces the falsy
number 0 (as well as `undefined`) by the default 3. -/
def effectiveRate (animationRate : Option ℚ) : ℚ :=
  match animationRate with
  | some r => if r = 0 then 3 else r
  | none => 3

/-- `duration = (11 - animationRate) * 2` (seconds). -/
def particleDuration (animationRate : Option ℚ) : ℚ :=
  (11 - effectiveRate animationRate) * 2

/-- `particleCount = link.animationFrequency !== undefined ?
link.animationFrequency : 3`. -/
def particleCount (animationFrequency : Option ℚ) : ℚ :=
  match animationFrequency with
  | some f => f
  | none => 3

/-- Start-phase delay of marker `i` of `count`: `delay = (i / count) *
duration` (seconds). -/
def particleDelay (i : ℕ) (count duration : ℚ) : ℚ :=
  ((i : ℚ) / count) * duration

/-! ### The link-draw pass -/

/-- What the link-drawing pass contributes for one link: its id, original
index, generated path, stroke width (`link.value || 4` — the embedded
`value` already defaults to 4), label, and particle count. -/
structure DrawnLink where
  id : String
  index : ℕ
  path : List PathCmd
  strokeWidth : ℚ
  label : Option String
  particles : ℚ
deriving DecidableEq, Repr

/-- Whether both endpoint ids of a link resolve in the node map. -/
def resolvable (nodeMap : String → Option DiagramNode) (link : DiagramLink) : Bool :=
  (nodeMap link.source).isSome && (nodeMap link.target).isSome

/-- The element the draw pass appends for link `l` at index `i`. -/
def drawLink (nodeMap : String → Option DiagramNode) (i : ℕ) (l : DiagramLink) : DrawnLink :=
  { id := l.id
    index := i
    path := generateLinkPath nodeMap l i false
    strokeWidth := l.value
    label := l.label
    particles := particleCount l.animationFrequency }

/-- The full link-drawing pass: `diagramData.links.forEach((link,
linkIndex) => { ... if (!sourceNode || !targetNode) return; ... })` — the
early `return` skips the link, contributing nothing. -/
def drawLinks (nodes : List DiagramNode) (links : List DiagramLink) : List DrawnLink :=
  (links.enum).filterMap fun p =>
    if resolvable (nodeMapGet nodes) p.2 then some (drawLink (nodeMapGet nodes) p.1 p.2)
    else none

/-- The node-drawing pass draws every node of the configuration,
unconditionally (here just its id, position, and initial state). -/
def drawNodes (shouldAnim : Bool) (nodes : List DiagramNode) : List (String × Pt × NodeInit) :=
  nodes.map fun n => (n.id, ⟨n.x, n.y⟩, nodeInitial shouldAnim n.id true)

/-! ### The Next.js basic-auth middleware (`src/middleware.ts`)

JS strings are embedded as `List Char` so that every string operation is
structurally recursive (`String` is used only at the API edge, through
`String.data`). -/

/-- JS `String.prototype.split` with a single-character separator: splits
at every occurrence, keeping empty pieces, and `"".split(sep)` is `[""]`. -/
def jsSplit (sep : Char) : List Char → List (List Char)
  | [] => [[]]
  | c :: rest =>
    match jsSplit sep rest with
    | h :: t' => if c = sep then [] :: h :: t' else (c :: h) :: t'
    | [] => [[c]]

/-- ASCII whitespace, the characters stripped by forgiving base64
(TAB, LF, FF, CR, SPACE). -/
def isB64Whitespace (c : Char) : Bool :=
  c == ' ' || c == Char.ofNat 9 || c == Char.ofNat 10 ||
  c == Char.ofNat 12 || c == Char.ofNat 13

/-- Value of one base64 alphabet character. -/
def b64Value (c : Char) : Option ℕ :=
  if 'A' ≤ c ∧ c ≤ 'Z' then some (c.toNat - 65)
  else if 'a' ≤ c ∧ c ≤ 'z' then some (c.toNat - 97 + 26)
  else if '0' ≤ c ∧ c ≤ '9' then some (c.toNat - 48 + 52)
  else if c = '+' then some 62
  else if c = '/' then some 63
  else none

/-- Byte output of a run of base64 sextets: each full group of four
sextets yields three bytes; a leftover group of two or three yields one or
two bytes (the trailing bits are discarded, as forgiving base64 does). -/
def sextetsToBytes : List ℕ → List ℕ
  | a :: b :: c :: d :: rest =>
      (a * 4 + b / 16) :: ((b % 16) * 16 + c / 4) :: ((c % 4) * 64 + d)
        :: sextetsToBytes rest
  | [a, b] => [a * 4 + b / 16]
  | [a, b, c] => [a * 4 + b / 16, (b % 16) * 16 + c / 4]
  | _ => []

/-- `atob`, the forgiving-base64 decoder: strip ASCII whitespace; when the
length is a multiple of four, drop one or two trailing `=`; fail when the
remaining length is ≡ 1 (mod 4) or any character is outside the base64
alphabet; otherwise decode.  The decoded bytes are returned as a string of
Latin-1 code points, exactly as the platform `atob` does. -/
def atob (s : List Char) : Option (List Char) :=
  let data := s.filter fun c => !(isB64Whitespace c)
  let data :=
    if data.length % 4 = 0 then
      match data.reverse with
      | '=' :: '=' :: rest => rest.reverse
      | '=' :: rest => rest.reverse
      | _ => data
    else data
  if data.length % 4 = 1 then none
  else
    match data.mapM b64Value with
    | none => none
    | some sextets => some ((sextetsToBytes sextets).map Char.ofNat)

/-- Outcome of the middleware: pass the request through (`NextResponse.next`),
rewrite it to `/api/auth`, or propagate an exception thrown by `atob`. -/
inductive MwResult where
  | next
  | rewriteAuth
  | thrown
deriving DecidableEq, Repr

/-- `middleware` from `src/middleware.ts`.  The guard `if (basicAuth)` is
JS truthiness on a string-or-null value: it enters the credential check
only when the header is present **and non-empty** (the empty string is
falsy).  Inside the guard it takes `basicAuth.split(' ')[1]` (JS coerces
an `undefined` element to the string `"undefined"` inside `atob`),
decodes it (`atob` throwing on invalid base64), destructures the decode
on `':'` into `[user, pwd]`, and passes the request through only when
`user === 'calvin' && pwd === 'calvin123'`; every fall-through — absent
header, empty header, or failed credential check — rewrites to
`/api/auth`. -/
def middleware (authHeader : Option String) : MwResult :=
  match authHeader with
  | none => .rewriteAuth
  | some basicAuth =>
    if basicAuth = "" then .rewriteAuth
    else
      let authValue := (jsSplit ' ' basicAuth.data)[1]?
      match atob (authValue.getD "undefined".data) with
      | none => .thrown
      | some decoded =>
        let parts := jsSplit ':' decoded
        if parts[0]? = some "calvin".data ∧ parts[1]? = some "calvin123".data then .next
        else .rewriteAuth

/-! ### Path-shape observers and concrete fixtures -/

/-- Shape test: a single `M` followed by a single cubic Bezier (the
forward-link path shape). -/
def isSingleCubic : List PathCmd → Bool
  | [.move _ _, .cubic _ _ _ _ _ _] => true
  | _ => false

/-- Shape test: the ten-command rectilinear loop-back route
`M L Q L Q L Q L Q L`. -/
def isLoopRoute : List PathCmd → Bool
  | [.move _ _, .line _ _, .quad _ _ _ _, .line _ _, .quad _ _ _ _,
     .line _ _, .quad _ _ _ _, .line _ _, .quad _ _ _ _, .line _ _] => true
  | _ => false

/-- The y-coordinate of the sixth command of a loop-back path — the
horizontal traverse `L (tx - gap) loopY` — i.e. the path's loop height. -/
def pathLoopY : List PathCmd → Option ℚ
  | _ :: _ :: _ :: _ :: _ :: .line _ y :: _ => some y
  | _ => none

/-- Fixture: a source node whose right edge sits at x = 100. -/
def c4Source : DiagramNode := { id := "s", x := 0, y := 0, width := 100, height := 40 }

/-- Fixture: a target node sitting exactly at the source's right edge. -/
def c4Target : DiagramNode := { id := "t", x := 100, y := 100, width := 40, height := 40 }

/-- Fixture: the link joining `c4Source` to `c4Target`. -/
def c4Link : DiagramLink := { id := "st", source := "s", target := "t" }

/-- Node map over the two boundary-case fixture nodes. -/
def c4Map : String → Option DiagramNode := nodeMapGet [c4Source, c4Target]

/-- Fixture: node A with right edge at x = 100 and right-center anchor
y = 50 (as in the spec's loop-back example scenario). -/
def nodeA : DiagramNode := { id := "A", x := 60, y := 30, width := 40, height := 40 }

/-- Fixture: node B with left edge at x = 40 and left-center anchor
y = 200 (as in the spec's loop-back example scenario). -/
def nodeB : DiagramNode := { id := "B", x := 40, y := 180, width := 40, height := 40 }

/-- Fixture: the loop-back link from node A to node B, with no explicit
`returnY`. -/
def linkAB : DiagramLink := { id := "ab", source := "A", target := "B" }

/-- Node map over the loop-back fixture nodes. -/
def nmAB : String → Option DiagramNode := nodeMapGet [nodeA, nodeB]

/-- Fixture: a link whose source id resolves to no node. -/
def c8Link : DiagramLink := { id := "bad", source := "zzz", target := "A" }

/-- Fixture: a link configured with three particles at rate 3. -/
def c6Link : DiagramLink :=
  { id := "l", source := "a", target := "b",
    animationFrequency := some 3, animationRate := some 3 }

/-- Fixture: metadata tagged as the proposed system. -/
def c9Meta : DiagramMetadata := { system := "proposed" }

/-! ### Helper lemmas -/

lemma generateLinkPath_forward (nm : String → Option DiagramNode) (link : DiagramLink)
    (i : ℕ) (rev : Bool) (s t : DiagramNode)
    (hs : nm link.source = some s) (ht : nm link.target = some t)
    (hfwd : ¬ t.x < s.x + s.width) :
    generateLinkPath nm link i rev =
      [.move (s.x + s.width) (s.y + s.height / 2),
       .cubic ((s.x + s.width + t.x) / 2) (s.y + s.height / 2)
         ((s.x + s.width + t.x) / 2) (t.y + t.height / 2) t.x (t.y + t.height / 2)] := by
  unfold generateLinkPath
  rw [hs, ht]
  simp only [if_neg hfwd]

lemma generateLinkPath_loopback (nm : String → Option DiagramNode) (link : DiagramLink)
    (i : ℕ) (s t : DiagramNode)
    (hs : nm link.source = some s) (ht : nm link.target = some t)
    (hrev : t.x < s.x + s.width) :
    generateLinkPath nm link i false =
      (let sx := s.x + s.width
       let sy := s.y + s.height / 2
       let tx := t.x
       let ty := t.y + t.height / 2
       let loopY := computeLoopY link.returnY sy ty i
       let sourceCurveDir : ℚ := if sy < loopY then 1 else -1
       let targetCurveDir : ℚ := if ty < loopY then -1 else 1
       [ .move sx sy,
         .line (sx + 30) sy,
         .quad (sx + 30 + 20) sy (sx + 30 + 20) (sy + 20 * sourceCurveDir),
         .line (sx + 30 + 20) (loopY - 20 * sourceCurveDir),
         .quad (sx + 30 + 20) loopY (sx + 30) loopY,
         .line (tx - 30) loopY,
         .quad (tx - 30 - 20) loopY (tx - 30 - 20) (loopY + 20 * targetCurveDir),
         .line (tx - 30 - 20) (ty - 20 * targetCurveDir),
         .quad (tx - 30 - 20) ty (tx - 30) ty,
         .line tx ty ]) := by
  unfold generateLinkPath
  rw [hs, ht]
  simp only [if_pos hrev]
  rfl

lemma generateLinkPath_missing (nm : String → Option DiagramNode) (link : DiagramLink)
    (i : ℕ) (rev : Bool)
    (h : nm link.source = none ∨ nm link.target = none) :
    generateLinkPath nm link i rev = [] := by
  unfold generateLinkPath
  rcases h with h | h
  · rw [h]
  · rcases hsrc : nm link.source with _ | s
    · rfl
    · rw [h]

lemma filterMap_guard_eq {α β : Type} (c : α → Bool) (g : α → β) (l : List α) :
    (l.filterMap fun a => if c a then some (g a) else none) = (l.filter c).map g := by
  induction l with
  | nil => rfl
  | cons a l ih =>
    by_cases h : c a <;> simp [List.filterMap_cons, List.filter_cons, h, ih]

lemma nodeB_left_of_nodeA_right : nodeB.x < nodeA.x + nodeA.width := by
  norm_num [nodeA, nodeB]

lemma segEval_line_x_ge (m : ℚ) (p q : Pt) (t : ℚ) (h0 : 0 ≤ t) (h1 : t ≤ 1)
    (hp : m ≤ p.x) (hq : m ≤ q.x) : m ≤ (segEval (.line p q) t).x := by
  simp only [segEval]
  nlinarith [mul_nonneg (by linarith : (0:ℚ) ≤ 1 - t) (by linarith : (0:ℚ) ≤ p.x - m),
             mul_nonneg h0 (by linarith : (0:ℚ) ≤ q.x - m)]

lemma segEval_quad_x_ge (m : ℚ) (p c q : Pt) (t : ℚ) (h0 : 0 ≤ t) (h1 : t ≤ 1)
    (hp : m ≤ p.x) (hc : m ≤ c.x) (hq : m ≤ q.x) : m ≤ (segEval (.quad p c q) t).x := by
  simp only [segEval]
  nlinarith [mul_nonneg (mul_nonneg (by linarith : (0:ℚ) ≤ 1 - t)
               (by linarith : (0:ℚ) ≤ 1 - t)) (by linarith : (0:ℚ) ≤ p.x - m),
             mul_nonneg (mul_nonneg h0 (by linarith : (0:ℚ) ≤ 1 - t))
               (by linarith : (0:ℚ) ≤ c.x - m),
             mul_nonneg (mul_nonneg h0 h0) (by linarith : (0:ℚ) ≤ q.x - m)]

lemma linkAB_loopY (i : ℕ) :
    computeLoopY linkAB.returnY (nodeA.y + nodeA.height / 2) (nodeB.y + nodeB.height / 2) i
      = 300 + 60 * (i : ℚ) := by
  have hca : (nodeA.y + nodeA.height / 2 : ℚ) = 50 := by norm_num [nodeA]
  have hcb : (nodeB.y + nodeB.height / 2 : ℚ) = 200 := by norm_num [nodeB]
  rw [hca, hcb]
  simp only [computeLoopY, linkAB]
  rw [max_eq_right (by norm_num : (50 : ℚ) ≤ 200)]
  ring

lemma linkAB_path0 :
    generateLinkPath nmAB linkAB 0 false =
      [ .move 100 50, .line 130 50, .quad 150 50 150 70, .line 150 280,
        .quad 150 300 130 300, .line 10 300, .quad (-10) 300 (-10) 280,
        .line (-10) 220, .quad (-10) 200 10 200, .line 40 200 ] := by
  rw [generateLinkPath_loopback nmAB linkAB 0 nodeA nodeB rfl rfl nodeB_left_of_nodeA_right]
  have hloop := linkAB_loopY 0
  norm_num [linkAB, nodeA, nodeB, computeLoopY, max_def] at hloop ⊢

/-! ### Claim theorems -/

/-- Claim C1 (amended): the scene scale equals
`min((Vw - 20)/W, (Vh - 20)/H) * 0.95` — the viewport is first shrunk by
the fixed padding 20 on each axis — and the translation
`(V - extent*scale)/2 - bboxOrigin*scale` centers the scaled bounding box:
the left and right (top and bottom) margins around it are equal. -/
theorem C1_viewport_fit_corrected (vw vh bx bY w h : ℚ) :
    (viewportFit vw vh bx bY w h).scale = min ((vw - 20) / w) ((vh - 20) / h) * 0.95 ∧
    (viewportFit vw vh bx bY w h).translateX
      = (vw - w * (viewportFit vw vh bx bY w h).scale) / 2
          - bx * (viewportFit vw vh bx bY w h).scale ∧
    (viewportFit vw vh bx bY w h).translateY
      = (vh - h * (viewportFit vw vh bx bY w h).scale) / 2
          - bY * (viewportFit vw vh bx bY w h).scale ∧
    ((viewportFit vw vh bx bY w h).translateX + bx * (viewportFit vw vh bx bY w h).scale)
      = vw - ((viewportFit vw vh bx bY w h).translateX
               + bx * (viewportFit vw vh bx bY w h).scale
               + w * (viewportFit vw vh bx bY w h).scale) := by
  refine ⟨rfl, by simp [viewportFit], by simp [viewportFit], ?_⟩
  simp only [viewportFit]
  ring

/-- Claim C1 counterexample: for a 100x100 bounding box at the origin in a
120x120 viewport the applied scale is (120-20)/100 * 0.95 = 0.95, not
`min(120/100, 120/100) * 0.95 = 1.14` as the claim states. -/
theorem C1_counterexample :
    ¬ ((viewportFit 120 120 0 0 100 100).scale
        = min ((120 : ℚ) / 100) ((120 : ℚ) / 100) * 0.95) := by
  norm_num [viewportFit]

/-- Claim C2 counterexample: phase 4's absolute start time is
0+800 + 600+600 + 400+800 + 400 = 3600 ms, not the 3000 ms stated by the
claim (whose sum omits phase 2's 600 ms duration). -/
theorem C2_counterexample :
    getPhaseStartTime 4 = 3600 ∧ (3600 : ℕ) ≠ 3000 := by
  constructor
  · decide
  · decide

/-- Claim C2 (amended): the six phases carry the (delay, duration) pairs
(0,800)(600,600)(400,800)(400,600)(300,600)(300,600); for each phase
1..6 the code's `getPhaseStartTime` equals the spec's sum of all prior
phases' delay+duration plus the phase's own delay; and phase 4's absolute
start time is 3600 ms (not 3000 ms). -/
theorem C2_phase_starts (n : ℕ) (h1 : 1 ≤ n) (h6 : n ≤ 6) :
    ((List.range 6).map fun i => ((ANIMATION_PHASES (i + 1)).map fun p => (p.delay, p.duration)))
      = [some (0, 800), some (600, 600), some (400, 800), some (400, 600),
         some (300, 600), some (300, 600)] ∧
    getPhaseStartTime n = specPhaseStart n ∧
    getPhaseStartTime 4 = 3600 := by
  refine ⟨by decide, ?_, by decide⟩
  interval_cases n <;> decide

/-- Witness for C2 at phase 4. -/
theorem C2_witness : getPhaseStartTime 4 = specPhaseStart 4 ∧ specPhaseStart 4 = 3600 :=
  ⟨(C2_phase_starts 4 (by decide) (by decide)).2.1, by decide⟩

/-- Claim C3 (amended): for the spec's example link (source right edge
x = 100 with anchor y = 50, target left edge x = 40 with anchor y = 200,
no explicit `returnY`) at any link index, the computed loop height is at
least max(50,200)+100 = 300, and no point of the path's traversal has
x-coordinate below −10 = target.x − 50; the traversal does, however, cross
x < 0 (see the counterexample), so the claimed bound 0 is off by 50
pixels, the loop route's lateral clearance `gap + 20`. -/
theorem C3_loopback_amended (i : ℕ) :
    300 ≤ computeLoopY linkAB.returnY (nodeA.y + nodeA.height / 2)
        (nodeB.y + nodeB.height / 2) i ∧
    ∀ p : Pt, OnPath (generateLinkPath nmAB linkAB i false) p → (-10 : ℚ) ≤ p.x := by
  have hi : (0 : ℚ) ≤ (i : ℚ) := by positivity
  constructor
  · rw [linkAB_loopY]
    linarith
  · intro p hp
    rw [generateLinkPath_loopback nmAB linkAB i nodeA nodeB rfl rfl
      nodeB_left_of_nodeA_right] at hp
    simp only [OnPath, segments, segmentsFrom] at hp
    rcases hp with ⟨s, hs, t, h0, h1, heval⟩
    simp only [List.mem_cons, List.not_mem_nil, or_false] at hs
    rw [← heval]
    rcases hs with rfl|rfl|rfl|rfl|rfl|rfl|rfl|rfl|rfl
    · exact segEval_line_x_ge _ _ _ _ h0 h1 (by norm_num [nodeA]) (by norm_num [nodeA])
    · exact segEval_quad_x_ge _ _ _ _ _ h0 h1 (by norm_num [nodeA]) (by norm_num [nodeA])
        (by norm_num [nodeA])
    · exact segEval_line_x_ge _ _ _ _ h0 h1 (by norm_num [nodeA]) (by norm_num [nodeA])
    · exact segEval_quad_x_ge _ _ _ _ _ h0 h1 (by norm_num [nodeA]) (by norm_num [nodeA])
        (by norm_num [nodeA])
    · exact segEval_line_x_ge _ _ _ _ h0 h1 (by norm_num [nodeA]) (by norm_num [nodeB])
    · exact segEval_quad_x_ge _ _ _ _ _ h0 h1 (by norm_num [nodeB]) (by norm_num [nodeB])
        (by norm_num [nodeB])
    · exact segEval_line_x_ge _ _ _ _ h0 h1 (by norm_num [nodeB]) (by norm_num [nodeB])
    · exact segEval_quad_x_ge _ _ _ _ _ h0 h1 (by norm_num [nodeB]) (by norm_num [nodeB])
        (by norm_num [nodeB])
    · exact segEval_line_x_ge _ _ _ _ h0 h1 (by norm_num [nodeB]) (by norm_num [nodeB])

/-- Claim C3 counterexample: the point (−10, 220) lies on the example
link's traversal (it is the endpoint of the vertical approach segment at
x = target.x − gap − 20 = 40 − 30 − 20) and has x < 0, refuting the
claim's "no point of the traversal has x < 0". -/
theorem C3_counterexample :
    OnPath (generateLinkPath nmAB linkAB 0 false) ⟨-10, 220⟩ ∧ ((⟨-10, 220⟩ : Pt).x < 0) := by
  constructor
  · rw [linkAB_path0]
    refine ⟨.line ⟨-10, 280⟩ ⟨-10, 220⟩, ?_, 1, by norm_num, le_refl 1, ?_⟩
    · simp [segments, segmentsFrom]
    · norm_num [segEval]
  · norm_num

/-- Witness for C3: at index 0 the loop height bound holds, and the
traversal's start anchor (100, 50) satisfies the amended x-bound. -/
theorem C3_witness :
    300 ≤ computeLoopY linkAB.returnY (nodeA.y + nodeA.height / 2)
        (nodeB.y + nodeB.height / 2) 0 ∧ (-10 : ℚ) ≤ (⟨100, 50⟩ : Pt).x :=
  ⟨(C3_loopback_amended 0).1,
   (C3_loopback_amended 0).2 ⟨100, 50⟩ (by
     rw [linkAB_path0]
     exact ⟨.line ⟨100, 50⟩ ⟨130, 50⟩, by simp [segments, segmentsFrom], 0, le_refl 0,
       by norm_num, by norm_num [segEval]⟩)⟩

/-- Claim C4 (amended): with both endpoints resolved, a target at or right
of the source's right edge (`sx ≤ tx`) yields the single cubic Bezier
with both control points at the horizontal midpoint, and a target
strictly left of the source's right edge yields the multi-segment
rectilinear loop-back route.  The boundary case `tx = sx` goes to the
forward Bezier, not to the loop-back route as the claim states. -/
theorem C4_branch (nm : String → Option DiagramNode) (link : DiagramLink) (i : ℕ)
    (s t : DiagramNode) (hs : nm link.source = some s) (ht : nm link.target = some t) :
    (s.x + s.width ≤ t.x →
      generateLinkPath nm link i false =
        [.move (s.x + s.width) (s.y + s.height / 2),
         .cubic ((s.x + s.width + t.x) / 2) (s.y + s.height / 2)
           ((s.x + s.width + t.x) / 2) (t.y + t.height / 2) t.x (t.y + t.height / 2)]) ∧
    (t.x < s.x + s.width → isLoopRoute (generateLinkPath nm link i false) = true) := by
  constructor
  · intro hle
    exact generateLinkPath_forward nm link i false s t hs ht (not_lt.2 hle)
  · intro hlt
    rw [generateLinkPath_loopback nm link i s t hs ht hlt]
    rfl

/-- Claim C4 counterexample: with the target exactly at the source's right
edge (`tx = sx`), the generated path is the single cubic Bezier and not
the loop-back route, refuting the claim's "otherwise (target at or left
of the source's right edge) ... multi-segment rectilinear loop-back". -/
theorem C4_counterexample :
    c4Target.x = c4Source.x + c4Source.width ∧
    isSingleCubic (generateLinkPath c4Map c4Link 0 false) = true ∧
    isLoopRoute (generateLinkPath c4Map c4Link 0 false) = false := by
  have h := generateLinkPath_forward c4Map c4Link 0 false c4Source c4Target rfl rfl
    (by norm_num [c4Source, c4Target])
  rw [h]
  exact ⟨by norm_num [c4Source, c4Target], rfl, rfl⟩

/-- Witness for C4: a boundary forward link and a genuine loop-back link. -/
theorem C4_witness :
    generateLinkPath c4Map c4Link 0 false =
      [.move (c4Source.x + c4Source.width) (c4Source.y + c4Source.height / 2),
       .cubic ((c4Source.x + c4Source.width + c4Target.x) / 2) (c4Source.y + c4Source.height / 2)
         ((c4Source.x + c4Source.width + c4Target.x) / 2) (c4Target.y + c4Target.height / 2)
         c4Target.x (c4Target.y + c4Target.height / 2)] ∧
    isLoopRoute (generateLinkPath nmAB linkAB 0 false) = true :=
  ⟨(C4_branch c4Map c4Link 0 c4Source c4Target rfl rfl).1 (by norm_num [c4Source, c4Target]),
   (C4_branch nmAB linkAB 0 nodeA nodeB rfl rfl).2 nodeB_left_of_nodeA_right⟩

/-- Claim C5: for every link whose endpoints resolve, the primary
(non-reversed) generated path starts exactly at the source's right-center
anchor and ends exactly at the target's left-center anchor, in both the
forward-Bezier and the loop-back case, for every link index. -/
theorem C5_endpoints (nm : String → Option DiagramNode) (link : DiagramLink) (i : ℕ)
    (s t : DiagramNode) (hs : nm link.source = some s) (ht : nm link.target = some t) :
    pathStart (generateLinkPath nm link i false) = some ⟨s.x + s.width, s.y + s.height / 2⟩ ∧
    pathEnd (generateLinkPath nm link i false) = some ⟨t.x, t.y + t.height / 2⟩ := by
  by_cases hrev : t.x < s.x + s.width
  · rw [generateLinkPath_loopback nm link i s t hs ht hrev]
    exact ⟨rfl, rfl⟩
  · rw [generateLinkPath_forward nm link i false s t hs ht hrev]
    exact ⟨rfl, rfl⟩

/-- Witness for C5 on the loop-back fixture link. -/
theorem C5_witness :
    pathStart (generateLinkPath nmAB linkAB 0 false)
      = some ⟨nodeA.x + nodeA.width, nodeA.y + nodeA.height / 2⟩ ∧
    pathEnd (generateLinkPath nmAB linkAB 0 false)
      = some ⟨nodeB.x, nodeB.y + nodeB.height / 2⟩ :=
  C5_endpoints nmAB linkAB 0 nodeA nodeB rfl rfl

/-- Claim C6 counterexample: a configured rate of 0 is falsy in JS, so
`animationRate || 3` replaces it by the default 3 and the duration at
rate 0 is 16 s, shorter than the 20 s at rate 1 — the loop duration is
not strictly decreasing over all configured rate values. -/
theorem C6_counterexample :
    (0 : ℚ) < 1 ∧ particleDuration (some 0) = 16 ∧ particleDuration (some 1) = 20 ∧
      ¬ particleDuration (some 1) < particleDuration (some 0) := by
  norm_num [particleDuration, effectiveRate]

/-- Claim C6 (amended): for a link with particle count 3 and rate 3 the
loop duration is (11 − 3) × 2 = 16 s and marker i's start-phase delay is
(i/3) × 16, i.e. 0 s, 16/3 s and 32/3 s for the three markers; the loop
duration is strictly decreasing in the configured rate over nonzero
rates (a configured 0 is falsy and falls back to the default rate 3). -/
theorem C6_particle_schedule :
    (∀ l : DiagramLink, l.animationFrequency = some 3 → l.animationRate = some 3 →
      particleCount l.animationFrequency = 3 ∧
      particleDuration l.animationRate = 16 ∧
      ∀ i : ℕ, particleDelay i (particleCount l.animationFrequency)
          (particleDuration l.animationRate) = (i : ℚ) * 16 / 3) ∧
    (particleDelay 0 3 16 = 0 ∧ particleDelay 1 3 16 = 16 / 3 ∧
      particleDelay 2 3 16 = 32 / 3) ∧
    (∀ r1 r2 : ℚ, r1 ≠ 0 → r2 ≠ 0 → r1 < r2 →
      particleDuration (some r2) < particleDuration (some r1)) := by
  refine ⟨?_, by norm_num [particleDelay], ?_⟩
  · intro l hf hr
    rw [hf, hr]
    norm_num [particleCount, particleDuration, effectiveRate, particleDelay]
    intro i
    ring
  · intro r1 r2 h1 h2 hlt
    simp only [particleDuration, effectiveRate, if_neg h1, if_neg h2]
    linarith

/-- Witness for C6 on the count-3 rate-3 fixture link and on rates 2 < 5. -/
theorem C6_witness :
    particleCount c6Link.animationFrequency = 3 ∧ particleDuration c6Link.animationRate = 16 ∧
      particleDelay 2 (particleCount c6Link.animationFrequency)
        (particleDuration c6Link.animationRate) = (2 : ℚ) * 16 / 3 ∧
      particleDuration (some 5) < particleDuration (some 2) := by
  have h := C6_particle_schedule.1 c6Link rfl rfl
  exact ⟨h.1, h.2.1, h.2.2 2, C6_particle_schedule.2.2 2 5 (by norm_num) (by norm_num) (by norm_num)⟩

/-- Claim C7: with no explicit `returnY` the fallback loop height is
`max(sy, ty) + 100 + 60·index`, so two loop-back links over the same node
pair at consecutive indices get loop heights exactly 60 units apart, as
read off both from `computeLoopY` and from the generated paths. -/
theorem C7_stagger (nm : String → Option DiagramNode) (link : DiagramLink) (i : ℕ)
    (s t : DiagramNode) (hs : nm link.source = some s) (ht : nm link.target = some t)
    (hrev : t.x < s.x + s.width) (hret : link.returnY = none) :
    (∀ sy ty : ℚ, ∀ j : ℕ, computeLoopY none sy ty j = max sy ty + 100 + 60 * j) ∧
    (∀ sy ty : ℚ, ∀ j : ℕ,
      computeLoopY none sy ty (j + 1) - computeLoopY none sy ty j = 60) ∧
    pathLoopY (generateLinkPath nm link i false)
      = some (computeLoopY none (s.y + s.height / 2) (t.y + t.height / 2) i) ∧
    pathLoopY (generateLinkPath nm link (i + 1) false)
      = some (computeLoopY none (s.y + s.height / 2) (t.y + t.height / 2) i + 60) := by
  have hformula : ∀ sy ty : ℚ, ∀ j : ℕ,
      computeLoopY none sy ty j = max sy ty + 100 + 60 * j := by
    intro sy ty j
    simp only [computeLoopY]
    ring
  have hdiff : ∀ sy ty : ℚ, ∀ j : ℕ,
      computeLoopY none sy ty (j + 1) - computeLoopY none sy ty j = 60 := by
    intro sy ty j
    rw [hformula, hformula]
    push_cast
    ring
  have hgen : ∀ j : ℕ, pathLoopY (generateLinkPath nm link j false)
      = some (computeLoopY link.returnY (s.y + s.height / 2) (t.y + t.height / 2) j) := by
    intro j
    rw [generateLinkPath_loopback nm link j s t hs ht hrev]
    rfl
  refine ⟨hformula, hdiff, by rw [hgen i, hret], ?_⟩
  rw [hgen (i + 1), hret]
  have := hdiff (s.y + s.height / 2) (t.y + t.height / 2) i
  congr 1
  linarith

/-- Witness for C7 on the loop-back fixture at indices 0 and 1. -/
theorem C7_witness :
    pathLoopY (generateLinkPath nmAB linkAB 0 false)
      = some (computeLoopY none (nodeA.y + nodeA.height / 2) (nodeB.y + nodeB.height / 2) 0) ∧
    pathLoopY (generateLinkPath nmAB linkAB 1 false)
      = some (computeLoopY none (nodeA.y + nodeA.height / 2) (nodeB.y + nodeB.height / 2) 0 + 60) :=
  ⟨(C7_stagger nmAB linkAB 0 nodeA nodeB rfl rfl nodeB_left_of_nodeA_right rfl).2.2.1,
   (C7_stagger nmAB linkAB 0 nodeA nodeB rfl rfl nodeB_left_of_nodeA_right rfl).2.2.2⟩

/-- Claim C8: a link with an unresolvable endpoint generates the empty
path and is skipped by the link-drawing pass (no drawn element carries
its index), while exactly the resolvable links are drawn, each from its
own original index with its usual path/label/particle data, and the node
pass still draws every node; no error is raised (the embedding is total). -/
theorem C8_missing_node (nodes : List DiagramNode) (links : List DiagramLink)
    (link : DiagramLink) (i : ℕ) (rev : Bool)
    (h : nodeMapGet nodes link.source = none ∨ nodeMapGet nodes link.target = none) :
    generateLinkPath (nodeMapGet nodes) link i rev = [] ∧
    drawLinks nodes links
      = ((links.enum).filter fun p => resolvable (nodeMapGet nodes) p.2).map
          (fun p => drawLink (nodeMapGet nodes) p.1 p.2) ∧
    (∀ j, links[j]? = some link → ∀ d ∈ drawLinks nodes links, d.index ≠ j) ∧
    ∀ sa, (drawNodes sa nodes).length = nodes.length := by
  have hres : resolvable (nodeMapGet nodes) link = false := by
    rcases h with h | h <;> simp [resolvable, h]
  have hdraw : drawLinks nodes links
      = ((links.enum).filter fun p => resolvable (nodeMapGet nodes) p.2).map
          (fun p => drawLink (nodeMapGet nodes) p.1 p.2) :=
    filterMap_guard_eq _ _ _
  refine ⟨generateLinkPath_missing _ _ _ _ h, hdraw, ?_, fun sa => by simp [drawNodes]⟩
  intro j hj d hd hne
  rw [hdraw] at hd
  rcases List.mem_map.1 hd with ⟨p, hp, hdp⟩
  rcases List.mem_filter.1 hp with ⟨hpe, hpc⟩
  have hidx : d.index = p.1 := by rw [← hdp]; rfl
  have hp1 : p.1 = j := by rw [← hidx, hne]
  have hget : links[p.1]? = some p.2 := List.mem_enum_iff_getElem?.1 hpe
  rw [hp1, hj] at hget
  have : p.2 = link := by injection hget.symm
  rw [this, hres] at hpc
  exact Bool.false_ne_true hpc

/-- Witness for C8 on a one-link diagram whose link has an unknown source. -/
theorem C8_witness :
    generateLinkPath (nodeMapGet [nodeA]) c8Link 0 false = [] ∧
    drawLinks [nodeA] [c8Link]
      = ((([c8Link] : List DiagramLink).enum).filter
          fun p => resolvable (nodeMapGet [nodeA]) p.2).map
          (fun p => drawLink (nodeMapGet [nodeA]) p.1 p.2) :=
  ⟨(C8_missing_node [nodeA] [c8Link] c8Link 0 false (Or.inl rfl)).1,
   (C8_missing_node [nodeA] [c8Link] c8Link 0 false (Or.inl rfl)).2.1⟩

/-- Claim C9: the staged reveal runs iff the `animateTransition` flag is
set and `metadata.system` is "proposed" (metadata absent or any other tag
gives "current"); when it does not run, every node renders at its base
opacity and scale 1 with no transition scheduled, and every link at its
base opacity with no transition scheduled. -/
theorem C9_reveal_gate :
    (∀ (a : Bool) (md : Option DiagramMetadata),
      shouldAnimate a md = true ↔ a = true ∧ ∃ m, md = some m ∧ m.system = "proposed") ∧
    (∀ (a : Bool) (md : Option DiagramMetadata), shouldAnimate a md = false →
      (∀ (nodeId : String) (connected : Bool),
        nodeInitial (shouldAnimate a md) nodeId connected
          = { opacity := if connected then (1 : ℚ) else 0.2, scale := 1, animated := false }) ∧
      (∀ (link : DiagramLink) (hl : Option String),
        linkInitial (shouldAnimate a md) link hl
          = { opacity :=
                match hl with
                | some hn => if hn = link.source ∨ hn = link.target then (0.8 : ℚ) else 0.1
                | none => (0.6 : ℚ),
              animated := false })) := by
  constructor
  · intro a md
    cases md with
    | none => simp [shouldAnimate, contextOf]
    | some m =>
      by_cases hm : m.system = "proposed" <;>
        simp [shouldAnimate, contextOf, hm]
  · intro a md h
    rw [h]
    constructor
    · intro nodeId connected
      simp [nodeInitial]
    · intro link hl
      cases hl <;> simp [linkInitial]

/-- Witness for C9: the gate opens for (true, proposed) and, when closed,
a phase-listed node still renders at opacity 1 and scale 1 unanimated. -/
theorem C9_witness :
    shouldAnimate true (some c9Meta) = true ∧
    nodeInitial (shouldAnimate false (some c9Meta)) "anaerobic-digester" true
      = { opacity := if true then (1 : ℚ) else 0.2, scale := 1, animated := false } :=
  ⟨(C9_reveal_gate.1 true (some c9Meta)).mpr ⟨rfl, c9Meta, rfl, rfl⟩,
   (C9_reveal_gate.2 false (some c9Meta) rfl).1 "anaerobic-digester" true⟩

/-- Claim C10 (amended): an absent Authorization header, and an empty one
(the empty string is falsy, so `if (basicAuth)` skips the credential
check), rewrite to /api/auth.  For a non-empty header the middleware
passes the request through exactly when the header's second
space-separated token base64-decodes (a missing token is coerced to the
literal string "undefined") to a credential whose first colon-separated
field is "calvin" and whose second is "calvin123"; a decodable credential
failing that check rewrites to /api/auth; an undecodable or missing token
makes `atob` throw. -/
theorem C10_middleware (s : String) :
    middleware none = MwResult.rewriteAuth ∧
    middleware (some "") = MwResult.rewriteAuth ∧
    (s ≠ "" →
      (middleware (some s) = .thrown ↔
        atob (((jsSplit ' ' s.data)[1]?).getD "undefined".data) = none) ∧
      (middleware (some s) = .next ↔
        ∃ d : List Char,
          atob (((jsSplit ' ' s.data)[1]?).getD "undefined".data) = some d ∧
          (jsSplit ':' d)[0]? = some "calvin".data ∧
          (jsSplit ':' d)[1]? = some "calvin123".data) ∧
      (middleware (some s) = .rewriteAuth ↔
        ∃ d : List Char,
          atob (((jsSplit ' ' s.data)[1]?).getD "undefined".data) = some d ∧
          ¬((jsSplit ':' d)[0]? = some "calvin".data ∧
            (jsSplit ':' d)[1]? = some "calvin123".data))) := by
  refine ⟨rfl, rfl, fun hne => ?_⟩
  unfold middleware
  dsimp only
  rw [if_neg hne]
  split
  · next heq => simp [heq]
  · next d heq =>
      split
      · next hcred => simp [heq, hcred]
      · next hcred =>
          simp [heq, hcred]
          exact fun ha hb => hcred ⟨ha, hb⟩

/-- Claim C10 counterexample: the header whose credential token decodes
to "calvin:calvin123:x" — not to "calvin:calvin123" — still passes,
because the destructuring `const [user, pwd] = atob(v).split(':')` only
inspects the first two colon-separated fields. -/
theorem C10_counterexample :
    middleware (some "Basic Y2FsdmluOmNhbHZpbjEyMzp4") = .next ∧
    atob "Y2FsdmluOmNhbHZpbjEyMzp4".data = some "calvin:calvin123:x".data ∧
    "calvin:calvin123:x".data ≠ "calvin:calvin123".data := by
  refine ⟨by decide, by decide, by decide⟩

/-- Witness for C10: the genuine credential header passes through. -/
theorem C10_witness :
    middleware (some "Basic Y2FsdmluOmNhbHZpbjEyMw==") = .next :=
  ((C10_middleware "Basic Y2FsdmluOmNhbHZpbjEyMw==").2.2 (by decide)).2.1.mpr
    ⟨"calvin:calvin123".data, by decide, by decide, by decide⟩

end Biochar
